import Mathlib

/-!
Verification of the Menshun credential-rotation and audit-integrity model.

This file shallowly embeds the Python source of
`backend/app/models/credential.py` and `backend/app/models/audit.py` in
Lean 4 and settles the specification claims against it.

Conventions of the embedding:
* Python `datetime` values in the credential module are modelled as integer
  microseconds since an (arbitrary) epoch; `timedelta(days=d)` and
  `timedelta(minutes=m)` become the corresponding microsecond counts.
  Methods that call `datetime.utcnow()` receive the current instant as an
  explicit `now` argument; a method whose body calls `utcnow()` more than
  once (e.g. `mark_rotated`, which calls it once directly and once inside
  `schedule_rotation`) is modelled with the single instant `now`, the usual
  shallow abstraction of "both calls happen at the same moment".
* Python `str` is modelled as `List Char` (a sequence of Unicode scalar
  values; PostgreSQL text columns cannot hold lone surrogates, so Lean's
  `Char` is the right code-point type).
* `int(timedelta.total_seconds())` is modelled exactly as truncating
  division of the microsecond difference by 10^6 (`Int.tdiv`), abstracting
  the intermediate IEEE double (exact for every duration the model meets).
* ORM rows become structures holding the mapped columns that the claims
  touch; SQLAlchemy event listeners become explicit functions invoked by
  the session-flush operations that would fire them.
-/

namespace Menshun

/-- Microseconds since the epoch; the model of a Python `datetime`. -/
abbrev Micros := Int

/-- `timedelta(minutes=m)` in microseconds. -/
def minutes (m : Nat) : Micros := (m : Int) * 60000000

/-- `timedelta(days=d)` in microseconds. -/
def days (d : Int) : Micros := d * 86400000000

/-- `CredentialStatus` enum from `credential.py`. -/
inductive CredentialStatus where
  | active | expired | rotated | revoked | pending_rotation
deriving DecidableEq, Repr

/-- `RotationStatus` enum from `credential.py`. -/
inductive RotationStatus where
  | scheduled | in_progress | completed | failed | cancelled
deriving DecidableEq, Repr

/-- The `Credential` ORM model (`credential.py`), restricted to the mapped
columns the rotation logic and the claims touch. -/
structure Credential where
  status : CredentialStatus
  vault_path : List Char
  expires_at : Option Micros
  rotation_frequency_days : Int
  next_rotation_date : Option Micros
  last_rotated : Option Micros
  rotation_count : Nat
  auto_rotation_enabled : Bool
  notification_sent : Bool
  use_count : Nat
  last_used : Option Micros
deriving DecidableEq, Repr

/-- `Credential.needs_rotation` from `credential.py`: returns `False` when
auto-rotation is disabled, `True` when no next rotation date is set, else
compares `utcnow() >= next_rotation_date`. -/
def Credential.needs_rotation (c : Credential) (now : Micros) : Bool :=
  if !c.auto_rotation_enabled then false
  else
    match c.next_rotation_date with
    | none => true
    | some d => decide (d ≤ now)

/-- `Credential.schedule_rotation` from `credential.py`: with the default
`days_from_now=None` it uses `rotation_frequency_days`, then sets
`next_rotation_date = utcnow() + timedelta(days=days_from_now)`. -/
def Credential.schedule_rotation (c : Credential) (now : Micros)
    (days_from_now : Option Int) : Credential :=
  let d := days_from_now.getD c.rotation_frequency_days
  { c with next_rotation_date := some (now + days d) }

/-- `Credential.mark_rotated` from `credential.py`: sets `last_rotated`,
increments `rotation_count`, calls `schedule_rotation()` and resets
`notification_sent`.  The method performs no status check of any kind. -/
def Credential.mark_rotated (c : Credential) (now : Micros) : Credential :=
  let c1 := { c with last_rotated := some now, rotation_count := c.rotation_count + 1 }
  let c2 := c1.schedule_rotation now none
  { c2 with notification_sent := false }

/-- `Credential.record_access` from `credential.py`. -/
def Credential.record_access (c : Credential) (now : Micros) : Credential :=
  { c with last_used := some now, use_count := c.use_count + 1 }

/-- The `CredentialRotation` ORM model (`credential.py`), restricted to the
mapped columns its methods and the claims touch. -/
structure CredentialRotation where
  status : RotationStatus
  scheduled_date : Micros
  started_at : Option Micros
  completed_at : Option Micros
  old_vault_path : Option (List Char)
  new_vault_path : Option (List Char)
  error_message : Option (List Char)
  retry_count : Nat
  max_retries : Nat
  next_retry_at : Option Micros
  duration_seconds : Option Int
  rollback_available : Bool
deriving DecidableEq, Repr

/-- `CredentialRotation.can_retry` from `credential.py`:
`status == FAILED and retry_count < max_retries`. -/
def CredentialRotation.can_retry (a : CredentialRotation) : Bool :=
  decide (a.status = RotationStatus.failed) && decide (a.retry_count < a.max_retries)

/-- `CredentialRotation.calculate_duration` from `credential.py`: `None`
unless both `started_at` and `completed_at` are set, else
`int((completed_at - started_at).total_seconds())`. -/
def CredentialRotation.calculate_duration (a : CredentialRotation) : Option Int :=
  match a.started_at, a.completed_at with
  | some s, some e => some ((e - s).tdiv 1000000)
  | _, _ => none

/-- `CredentialRotation.mark_started` from `credential.py`: unconditionally
sets `status = IN_PROGRESS` and `started_at = utcnow()`; the method checks
no precondition on the current status. -/
def CredentialRotation.mark_started (a : CredentialRotation) (now : Micros) :
    CredentialRotation :=
  { a with status := RotationStatus.in_progress, started_at := some now }

/-- `CredentialRotation.mark_completed` from `credential.py`: unconditionally
sets `status = COMPLETED`, `completed_at = utcnow()`, `new_vault_path`, then
`duration_seconds = self.calculate_duration()` (computed on the already
updated row).  It touches no other object: in particular it never calls
`credential.mark_rotated`. -/
def CredentialRotation.mark_completed (a : CredentialRotation) (now : Micros)
    (new_vault_path : List Char) : CredentialRotation :=
  let a1 := { a with
    status := RotationStatus.completed
    completed_at := some now
    new_vault_path := some new_vault_path }
  { a1 with duration_seconds := a1.calculate_duration }

/-- `CredentialRotation.mark_failed` from `credential.py`: unconditionally
sets `status = FAILED`, `error_message`, `completed_at`, `duration_seconds`;
then, if `can_retry()` (checked after the status write, so it reduces to
`retry_count < max_retries`), increments `retry_count` and sets
`next_retry_at = utcnow() + timedelta(minutes=2 ** retry_count)` with the
already incremented counter.  When `can_retry()` is false nothing further
is assigned: `next_retry_at` keeps whatever value it already had, and the
owning credential is never touched. -/
def CredentialRotation.mark_failed (a : CredentialRotation) (now : Micros)
    (error_message : List Char) : CredentialRotation :=
  let a1 := { a with
    status := RotationStatus.failed
    error_message := some error_message
    completed_at := some now }
  let a2 := { a1 with duration_seconds := a1.calculate_duration }
  if a2.can_retry then
    let a3 := { a2 with retry_count := a2.retry_count + 1 }
    { a3 with next_retry_at := some (now + minutes (2 ^ a3.retry_count)) }
  else a2

/-- A credential together with one of its rotation attempts: the pair of ORM
rows a session holds when the executor drives a rotation.  The
`CredentialRotation` methods are methods of the attempt row alone, so
lifting them to the pair leaves the credential component untouched — that
frame condition is exactly what the source's method bodies say (they never
reference `self.credential`). -/
structure RotationSystem where
  credential : Credential
  attempt : CredentialRotation
deriving DecidableEq, Repr

/-- `mark_failed` lifted to the credential/attempt pair. -/
def RotationSystem.markFailed (s : RotationSystem) (now : Micros)
    (msg : List Char) : RotationSystem :=
  { s with attempt := s.attempt.mark_failed now msg }

/-- `mark_completed` lifted to the credential/attempt pair. -/
def RotationSystem.markCompleted (s : RotationSystem) (now : Micros)
    (nvp : List Char) : RotationSystem :=
  { s with attempt := s.attempt.mark_completed now nvp }

/-- Modelled from the spec: the membership predicate of
`findDueForRotation(now)` as §4.1 words it — "all ACTIVE credentials with
auto_rotation_enabled and next_rotation_date ≤ now, OR with
next_rotation_date unset".  The repository has no such registry query; the
nearest code is `Credential.needs_rotation`, against which this predicate
is compared. -/
def specDueForRotation (c : Credential) (now : Micros) : Bool :=
  decide (c.status = CredentialStatus.active) && c.auto_rotation_enabled &&
    (match c.next_rotation_date with
     | none => true
     | some d => decide (d ≤ now))

/-- Closed form of `mark_failed`: a single conditional on
`retry_count < max_retries` (the status conjunct of `can_retry` is always
true at the check, the status having just been set to `FAILED`). -/
theorem mark_failed_closed (a : CredentialRotation) (now : Micros) (msg : List Char) :
    a.mark_failed now msg =
      if a.retry_count < a.max_retries then
        { a with
          status := RotationStatus.failed
          error_message := some msg
          completed_at := some now
          duration_seconds := a.started_at.map (fun s => (now - s).tdiv 1000000)
          retry_count := a.retry_count + 1
          next_retry_at := some (now + minutes (2 ^ (a.retry_count + 1))) }
      else
        { a with
          status := RotationStatus.failed
          error_message := some msg
          completed_at := some now
          duration_seconds := a.started_at.map (fun s => (now - s).tdiv 1000000) } := by
  unfold CredentialRotation.mark_failed CredentialRotation.can_retry
    CredentialRotation.calculate_duration
  dsimp only
  by_cases h : a.retry_count < a.max_retries
  · simp [h]
    cases a.started_at <;> simp
  · simp [h]
    cases a.started_at <;> simp

/-- `markFailed` on an explicit pair, by definition. -/
theorem markFailed_def (c : Credential) (a : CredentialRotation) (now : Micros)
    (msg : List Char) :
    RotationSystem.markFailed ⟨c, a⟩ now msg = ⟨c, a.mark_failed now msg⟩ := rfl

/-- A concrete baseline credential used by witnesses and counterexamples. -/
def cBase : Credential :=
  { status := CredentialStatus.active
    vault_path := "credentials/svc/password/20240101/1".toList
    expires_at := none
    rotation_frequency_days := 90
    next_rotation_date := none
    last_rotated := none
    rotation_count := 0
    auto_rotation_enabled := true
    notification_sent := false
    use_count := 0
    last_used := none }

/-- A concrete baseline rotation attempt used by witnesses and
counterexamples. -/
def aBase : CredentialRotation :=
  { status := RotationStatus.scheduled
    scheduled_date := 0
    started_at := none
    completed_at := none
    old_vault_path := none
    new_vault_path := none
    error_message := none
    retry_count := 0
    max_retries := 3
    next_retry_at := none
    duration_seconds := none
    rollback_available := true }

example : cBase.needs_rotation 0 = true := by decide
example : (aBase.mark_failed 0 "e".toList).retry_count = 1 := by decide
example : ((aBase.mark_failed 0 "e".toList).mark_failed 5 "e".toList).next_retry_at
    = some (5 + minutes 4) := by decide

/-- Claim C4: `mark_rotated` at time `T` sets `last_rotated = T`, increments
`rotation_count` by exactly one, sets
`next_rotation_date = T + rotation_frequency_days` days, resets
`notification_sent`, and changes no other field of the credential. -/
theorem C4_mark_rotated (c : Credential) (T : Micros) :
    (c.mark_rotated T).last_rotated = some T ∧
    (c.mark_rotated T).rotation_count = c.rotation_count + 1 ∧
    (c.mark_rotated T).next_rotation_date = some (T + days c.rotation_frequency_days) ∧
    (c.mark_rotated T).notification_sent = false ∧
    (c.mark_rotated T).status = c.status ∧
    (c.mark_rotated T).vault_path = c.vault_path ∧
    (c.mark_rotated T).expires_at = c.expires_at ∧
    (c.mark_rotated T).rotation_frequency_days = c.rotation_frequency_days ∧
    (c.mark_rotated T).auto_rotation_enabled = c.auto_rotation_enabled ∧
    (c.mark_rotated T).use_count = c.use_count ∧
    (c.mark_rotated T).last_used = c.last_used := by
  simp [Credential.mark_rotated, Credential.schedule_rotation]

/-- Claim C9, counterexample: `mark_rotated` accepts
`rotation_frequency_days = 0` (no validation exists anywhere on the field),
and then the rescheduled `next_rotation_date` equals the completion time
instead of lying strictly in the future. -/
theorem C9_counterexample :
    ({ cBase with rotation_frequency_days := 0 }.mark_rotated 1000).next_rotation_date
      = some 1000 ∧ ¬ ((1000 : Int) < 1000) := by decide

/-- Claim C9 as amended: whenever `rotation_frequency_days ≥ 1`, the
`next_rotation_date` produced by `mark_rotated` at time `T` is strictly
after `T`; the operation itself validates nothing, so the bound on the
frequency is a hypothesis, not a guarantee of the code. -/
theorem C9_future_rotation_date (c : Credential) (T : Micros)
    (hf : 1 ≤ c.rotation_frequency_days) :
    ∀ d, (c.mark_rotated T).next_rotation_date = some d → T < d := by
  intro d hd
  have hnext : (c.mark_rotated T).next_rotation_date
      = some (T + days c.rotation_frequency_days) := by
    simp [Credential.mark_rotated, Credential.schedule_rotation]
  rw [hnext] at hd
  have hdval : d = T + days c.rotation_frequency_days := by
    exact (Option.some.injEq _ _).mp hd.symm
  have hpos : (0 : Int) < days c.rotation_frequency_days := by
    have h1 : (1 : Int) * 86400000000 ≤ c.rotation_frequency_days * 86400000000 :=
      mul_le_mul_of_nonneg_right hf (by norm_num)
    unfold days
    linarith
  rw [hdval]
  linarith

/-- Claim C9, witness: the amended theorem applied to the baseline
credential (frequency 90 days) rotated at time 0. -/
theorem C9_witness : (0 : Int) < 7776000000000 :=
  C9_future_rotation_date cBase 0 (by decide) 7776000000000 (by decide)

/-- Claim C7, counterexample: on a credential whose status is `REVOKED`
(neither `ACTIVE` nor `PENDING_ROTATION`), `mark_rotated` raises nothing
and mutates the rotation fields — `rotation_count` goes from 0 to 1 and
`last_rotated` is stamped — contradicting "fails … and leaves the
credential's rotation fields unchanged". -/
theorem C7_counterexample :
    ({ cBase with status := CredentialStatus.revoked }).status ≠ CredentialStatus.active ∧
    ({ cBase with status := CredentialStatus.revoked }).status ≠ CredentialStatus.pending_rotation ∧
    ({ cBase with status := CredentialStatus.revoked }).rotation_count = 0 ∧
    ({ cBase with status := CredentialStatus.revoked }.mark_rotated 0).rotation_count = 1 ∧
    ({ cBase with status := CredentialStatus.revoked }.mark_rotated 0).last_rotated = some 0 := by
  decide

/-- Claim C7 as amended: `mark_rotated` checks no status precondition; on a
credential whose status is neither `ACTIVE` nor `PENDING_ROTATION` it
succeeds all the same, updating `last_rotated`, `rotation_count`,
`next_rotation_date` and `notification_sent` while leaving the status as
it was. -/
theorem C7_mark_rotated_unguarded (c : Credential) (T : Micros)
    (_h1 : c.status ≠ CredentialStatus.active)
    (_h2 : c.status ≠ CredentialStatus.pending_rotation) :
    (c.mark_rotated T).last_rotated = some T ∧
    (c.mark_rotated T).rotation_count = c.rotation_count + 1 ∧
    (c.mark_rotated T).next_rotation_date = some (T + days c.rotation_frequency_days) ∧
    (c.mark_rotated T).notification_sent = false ∧
    (c.mark_rotated T).status = c.status := by
  simp [Credential.mark_rotated, Credential.schedule_rotation]

/-- Claim C7, witness: the amended theorem applied to the revoked baseline
credential. -/
theorem C7_witness :
    ({ cBase with status := CredentialStatus.revoked }.mark_rotated 0).last_rotated = some 0 :=
  (C7_mark_rotated_unguarded { cBase with status := CredentialStatus.revoked } 0
    (by decide) (by decide)).1

/-- Claim C6, counterexample: a `REVOKED` credential with auto-rotation
enabled and no `next_rotation_date` is reported due by the code's
`needs_rotation`, while the claimed predicate (which requires `ACTIVE`)
rejects it — `needs_rotation` never consults the status. -/
theorem C6_counterexample :
    Credential.needs_rotation { cBase with status := CredentialStatus.revoked } 0 = true ∧
    specDueForRotation { cBase with status := CredentialStatus.revoked } 0 = false := by
  decide

/-- Claim C6 as amended: the due-for-rotation predicate of the code holds
exactly when auto-rotation is enabled and the next rotation date is unset
or has passed; the credential's status plays no role, and a credential
with `auto_rotation_enabled = false` is never due. -/
theorem C6_needs_rotation_iff (c : Credential) (now : Micros) :
    c.needs_rotation now = true ↔
      (c.auto_rotation_enabled = true ∧
        (c.next_rotation_date = none ∨
          ∃ d, c.next_rotation_date = some d ∧ d ≤ now)) := by
  unfold Credential.needs_rotation
  cases hb : c.auto_rotation_enabled <;> cases hn : c.next_rotation_date <;> simp [hb, hn]

/-- Claim C3, counterexample: on an attempt already in the terminal status
`COMPLETED`, `mark_started` raises nothing and rewrites the row — the
status becomes `IN_PROGRESS` and the attempt is not left unchanged. -/
theorem C3_counterexample :
    (({ aBase with status := RotationStatus.completed }).mark_started 3).status
      = RotationStatus.in_progress ∧
    ({ aBase with status := RotationStatus.completed }).mark_started 3
      ≠ { aBase with status := RotationStatus.completed } := by
  decide

/-- Claim C3 as amended: none of `mark_started`, `mark_completed`,
`mark_failed` checks the current status; from any state — terminal ones
included — `mark_started` sets `status = IN_PROGRESS` and stamps
`started_at = now`, `mark_completed` forces `COMPLETED` and `mark_failed`
forces `FAILED`; no `InvalidTransition` error exists in the code. -/
theorem C3_transitions_unguarded (a : CredentialRotation) (now : Micros)
    (p m : List Char) :
    a.mark_started now
      = { a with status := RotationStatus.in_progress, started_at := some now } ∧
    (a.mark_completed now p).status = RotationStatus.completed ∧
    (a.mark_failed now m).status = RotationStatus.failed := by
  refine ⟨rfl, rfl, ?_⟩
  unfold CredentialRotation.mark_failed
  dsimp only
  split <;> rfl

/-- Claim C5, counterexample: completing an in-progress attempt via
`mark_completed` leaves the owning credential exactly as it was — it is
not marked rotated, although `mark_rotated` would have changed it. -/
theorem C5_counterexample :
    (RotationSystem.markCompleted
        ⟨cBase, { aBase with status := RotationStatus.in_progress, started_at := some 0 }⟩
        5000000 "p".toList).credential = cBase ∧
    cBase.mark_rotated 5000000 ≠ cBase := by
  decide

/-- Claim C5 as amended: `mark_completed(new_vault_path)` stamps
`completed_at`, records `new_vault_path` and computes `duration_seconds`
as the whole seconds from `started_at` to `completed_at`; it does not
modify the owning credential — no `mark_rotated` call happens there. -/
theorem C5_mark_completed (s : RotationSystem) (now st : Micros) (nvp : List Char)
    (h : s.attempt.started_at = some st) :
    (s.markCompleted now nvp).attempt.status = RotationStatus.completed ∧
    (s.markCompleted now nvp).attempt.completed_at = some now ∧
    (s.markCompleted now nvp).attempt.new_vault_path = some nvp ∧
    (s.markCompleted now nvp).attempt.duration_seconds = some ((now - st).tdiv 1000000) ∧
    (s.markCompleted now nvp).credential = s.credential := by
  simp [RotationSystem.markCompleted, CredentialRotation.mark_completed,
    CredentialRotation.calculate_duration, h]

/-- Claim C5, witness: the amended theorem applied to a concrete
in-progress attempt started at 0 and completed at 5 seconds. -/
theorem C5_witness :
    (RotationSystem.markCompleted
        ⟨cBase, { aBase with status := RotationStatus.in_progress, started_at := some 0 }⟩
        5000000 "p".toList).attempt.status = RotationStatus.completed :=
  (C5_mark_completed
    ⟨cBase, { aBase with status := RotationStatus.in_progress, started_at := some 0 }⟩
    5000000 0 "p".toList rfl).1

/-- Claim C1, counterexample: starting from a fresh attempt
(`retry_count = 0`, `max_retries = 3`) on an `ACTIVE` credential, after a
fourth consecutive `mark_failed` the attempt still carries
`next_retry_at = some (…)` — the stale value set at the third failure, not
"no next_retry_at" — and the owning credential's status is still `ACTIVE`,
not `PENDING_ROTATION` (no code in the repository ever assigns
`PENDING_ROTATION`). -/
theorem C1_counterexample :
    ((((RotationSystem.markFailed ⟨cBase, aBase⟩ 0 []).markFailed 0 []).markFailed 0
        []).markFailed 0 []).attempt.next_retry_at = some 480000000 ∧
    ((((RotationSystem.markFailed ⟨cBase, aBase⟩ 0 []).markFailed 0 []).markFailed 0
        []).markFailed 0 []).credential.status = CredentialStatus.active := by
  decide

/-- Claim C1 as amended: with `max_retries = 3` and `retry_count` initially
0, three consecutive `mark_failed` calls at instants `t1, t2, t3` produce
`retry_count` 1, 2, 3 and `next_retry_at` 2, 4, 8 minutes after the
respective failure instant (delay `2^(retry_count+1)` minutes with the
pre-increment counter); a fourth failure increments nothing and schedules
no new retry — `next_retry_at` retains the value set at the third failure
— and the owning credential is not touched (in particular it is never set
to `PENDING_ROTATION`); retry eligibility holds exactly when
`status = FAILED` and `retry_count < max_retries`. -/
theorem C1_retry_backoff (s : RotationSystem) (t1 t2 t3 t4 : Micros)
    (m1 m2 m3 m4 : List Char)
    (h0 : s.attempt.retry_count = 0) (hm : s.attempt.max_retries = 3) :
    (s.markFailed t1 m1).attempt.retry_count = 1 ∧
    (s.markFailed t1 m1).attempt.next_retry_at = some (t1 + minutes 2) ∧
    ((s.markFailed t1 m1).markFailed t2 m2).attempt.retry_count = 2 ∧
    ((s.markFailed t1 m1).markFailed t2 m2).attempt.next_retry_at
      = some (t2 + minutes 4) ∧
    (((s.markFailed t1 m1).markFailed t2 m2).markFailed t3 m3).attempt.retry_count = 3 ∧
    (((s.markFailed t1 m1).markFailed t2 m2).markFailed t3 m3).attempt.next_retry_at
      = some (t3 + minutes 8) ∧
    ((((s.markFailed t1 m1).markFailed t2 m2).markFailed t3 m3).markFailed t4
        m4).attempt.retry_count = 3 ∧
    ((((s.markFailed t1 m1).markFailed t2 m2).markFailed t3 m3).markFailed t4
        m4).attempt.next_retry_at = some (t3 + minutes 8) ∧
    ((((s.markFailed t1 m1).markFailed t2 m2).markFailed t3 m3).markFailed t4
        m4).attempt.can_retry = false ∧
    ((((s.markFailed t1 m1).markFailed t2 m2).markFailed t3 m3).markFailed t4
        m4).credential = s.credential ∧
    (∀ a : CredentialRotation,
      a.can_retry = true ↔
        (a.status = RotationStatus.failed ∧ a.retry_count < a.max_retries)) := by
  obtain ⟨c, a⟩ := s
  obtain ⟨sta, sd, sa, ca, ov, nv, em, rc, mr, nr, ds, rb⟩ := a
  simp only at h0 hm
  subst h0; subst hm
  have e1 : (CredentialRotation.mk sta sd sa ca ov nv em 0 3 nr ds rb).mark_failed t1 m1
      = CredentialRotation.mk RotationStatus.failed sd sa (some t1) ov nv (some m1) 1 3
          (some (t1 + minutes 2)) (sa.map (fun s => (t1 - s).tdiv 1000000)) rb := by
    rw [mark_failed_closed]; norm_num
  have e2 : (CredentialRotation.mk RotationStatus.failed sd sa (some t1) ov nv (some m1) 1 3
          (some (t1 + minutes 2)) (sa.map (fun s => (t1 - s).tdiv 1000000)) rb).mark_failed t2 m2
      = CredentialRotation.mk RotationStatus.failed sd sa (some t2) ov nv (some m2) 2 3
          (some (t2 + minutes 4)) (sa.map (fun s => (t2 - s).tdiv 1000000)) rb := by
    rw [mark_failed_closed]; norm_num
  have e3 : (CredentialRotation.mk RotationStatus.failed sd sa (some t2) ov nv (some m2) 2 3
          (some (t2 + minutes 4)) (sa.map (fun s => (t2 - s).tdiv 1000000)) rb).mark_failed t3 m3
      = CredentialRotation.mk RotationStatus.failed sd sa (some t3) ov nv (some m3) 3 3
          (some (t3 + minutes 8)) (sa.map (fun s => (t3 - s).tdiv 1000000)) rb := by
    rw [mark_failed_closed]; norm_num
  have e4 : (CredentialRotation.mk RotationStatus.failed sd sa (some t3) ov nv (some m3) 3 3
          (some (t3 + minutes 8)) (sa.map (fun s => (t3 - s).tdiv 1000000)) rb).mark_failed t4 m4
      = CredentialRotation.mk RotationStatus.failed sd sa (some t4) ov nv (some m4) 3 3
          (some (t3 + minutes 8)) (sa.map (fun s => (t4 - s).tdiv 1000000)) rb := by
    rw [mark_failed_closed]; norm_num
  simp only [markFailed_def, e1, e2, e3, e4]
  simp [CredentialRotation.can_retry]

/-- Claim C1, witness: the amended theorem applied to the baseline pair at
failure instants 0, 60 s, 120 s, 180 s. -/
theorem C1_witness :
    (RotationSystem.markFailed ⟨cBase, aBase⟩ 0 []).attempt.retry_count = 1 :=
  (C1_retry_backoff ⟨cBase, aBase⟩ 0 60000000 120000000 180000000 [] [] [] []
    rfl rfl).1

/-!
Audit model (`audit.py`).

`AuditLog.calculate_checksum` serializes a fixed nine-field projection with
`json.dumps(data, sort_keys=True)` (default separators `", "` and `": "`,
`ensure_ascii=True`) and hashes the UTF-8 bytes with SHA-256.  The embedding
reproduces that byte string exactly: the sorted key order is
action, actor_upn, description, event_type, result, source_ip,
target_resource_id, target_resource_type, timestamp; string values are
JSON-escaped (`\"`, `\\`, `\b`, `\f`, `\n`, `\r`, `\t`, `\u00xx` for other
control characters, `\uxxxx` for every non-ASCII code point, surrogate
pairs beyond U+FFFF); `None` becomes `null`; the timestamp is
`datetime.isoformat()`.  The escaped JSON is pure ASCII, so UTF-8 encoding
is the identity on code points.
-/

/-- The decimal digit character `'0' + n` (defined for `n < 10`). -/
def digitChar (n : Nat) : Char := Char.ofNat (48 + n)

/-- The lowercase hexadecimal digit character (defined for `n < 16`),
as produced by Python's `%x` formatting. -/
def hexDigitChar (n : Nat) : Char :=
  Char.ofNat (if n < 10 then 48 + n else 87 + n)

/-- `n` printed in decimal, zero-padded to exactly `w` digits (the value of
Python's `%0wd` for `n < 10^w`), most significant digit first. -/
def pad : Nat → Nat → List Char
  | 0, _ => []
  | w + 1, n => digitChar (n / 10 ^ w) :: pad w (n % 10 ^ w)

/-- `n` printed in lowercase hexadecimal, zero-padded to exactly `w`
digits (the value of Python's `%0wx` for `n < 16^w`), most significant
digit first. -/
def hexPad : Nat → Nat → List Char
  | 0, _ => []
  | w + 1, n => hexDigitChar (n / 16 ^ w) :: hexPad w (n % 16 ^ w)

/-- A naive (timezone-free) Python `datetime`, as produced by
`datetime.utcnow()`: calendar fields plus microseconds. -/
structure PyDateTime where
  year : Nat
  month : Nat
  day : Nat
  hour : Nat
  minute : Nat
  second : Nat
  microsecond : Nat
deriving DecidableEq, Repr

/-- Field bounds under which `isoformat` is a faithful rendering: every
real `datetime` satisfies far tighter bounds (month ≤ 12 and so on); only
these digit-width bounds are needed here. -/
def PyDateTime.wf (t : PyDateTime) : Prop :=
  t.year < 10000 ∧ t.month < 100 ∧ t.day < 100 ∧ t.hour < 100 ∧
    t.minute < 100 ∧ t.second < 100 ∧ t.microsecond < 1000000

instance (t : PyDateTime) : Decidable t.wf := by
  unfold PyDateTime.wf; infer_instance

/-- `datetime.isoformat()` for a naive datetime:
`YYYY-MM-DDTHH:MM:SS`, with `.ffffff` appended exactly when the
microsecond field is nonzero. -/
def PyDateTime.isoformat (t : PyDateTime) : List Char :=
  pad 4 t.year ++ '-' :: pad 2 t.month ++ '-' :: pad 2 t.day ++
    'T' :: pad 2 t.hour ++ ':' :: pad 2 t.minute ++ ':' :: pad 2 t.second ++
    (if t.microsecond = 0 then [] else '.' :: pad 6 t.microsecond)

/-- JSON escape of a single code point, per CPython's `json.dumps` with
`ensure_ascii=True`: the two-character escapes for `"`, `\\` and the named
control characters, `\u00xx` for the remaining control characters,
the character itself for printable ASCII, `\uxxxx` for other BMP code
points and a surrogate pair for code points above U+FFFF. -/
def escChar (c : Char) : List Char :=
  let n := c.toNat
  if n = 34 then ['\\', '"']
  else if n = 92 then ['\\', '\\']
  else if n = 8 then ['\\', 'b']
  else if n = 12 then ['\\', 'f']
  else if n = 10 then ['\\', 'n']
  else if n = 13 then ['\\', 'r']
  else if n = 9 then ['\\', 't']
  else if n < 32 then '\\' :: 'u' :: hexPad 4 n
  else if n < 127 then [c]
  else if n < 65536 then '\\' :: 'u' :: hexPad 4 n
  else
    '\\' :: 'u' :: hexPad 4 (55296 + (n - 65536) / 1024) ++
      '\\' :: 'u' :: hexPad 4 (56320 + (n - 65536) % 1024)

/-- JSON escape of a whole string (the body between the quotes). -/
def escape : List Char → List Char
  | [] => []
  | c :: cs => escChar c ++ escape cs

/-- A JSON string literal: quote, escaped body, quote. -/
def encStr (s : List Char) : List Char := '"' :: (escape s ++ ['"'])

/-- A JSON value for an optional string: `null` or a string literal. -/
def encOpt : Option (List Char) → List Char
  | none => ['n', 'u', 'l', 'l']
  | some s => encStr s

/-- The `AuditLog` ORM model (`audit.py`), restricted to the nine columns
of the checksum projection plus a sample of the many non-projected
columns (severity, risk score, details, session id, retention date) and
the stored checksum itself. -/
structure AuditLog where
  timestamp : PyDateTime
  event_type : List Char
  action : List Char
  result : List Char
  actor_upn : Option (List Char)
  target_resource_type : Option (List Char)
  target_resource_id : Option (List Char)
  description : List Char
  source_ip : Option (List Char)
  severity : List Char
  risk_score : Nat
  details : Option (List Char)
  session_id : Option (List Char)
  retention_date : Option PyDateTime
  checksum : Option (List Char)
deriving DecidableEq, Repr

/-- The exact output of
`json.dumps({...nine fields...}, sort_keys=True)` in
`AuditLog.calculate_checksum`: keys in sorted order with `", "` and
`": "` separators, string values escaped, optional values `null` when
`None`, the timestamp serialized through `isoformat()`. -/
def canonicalJson (r : AuditLog) : List Char :=
  "\x7b\"action\": ".toList ++ encStr r.action ++
    ", \"actor_upn\": ".toList ++ encOpt r.actor_upn ++
    ", \"description\": ".toList ++ encStr r.description ++
    ", \"event_type\": ".toList ++ encStr r.event_type ++
    ", \"result\": ".toList ++ encStr r.result ++
    ", \"source_ip\": ".toList ++ encOpt r.source_ip ++
    ", \"target_resource_id\": ".toList ++ encOpt r.target_resource_id ++
    ", \"target_resource_type\": ".toList ++ encOpt r.target_resource_type ++
    ", \"timestamp\": ".toList ++ encStr r.timestamp.isoformat ++
    "\x7d".toList

/-!
SHA-256 (FIPS 180-4), the hash behind `hashlib.sha256(...).hexdigest()`.
Words are natural numbers taken modulo `2^32`; the digest is the
big-endian concatenation of the eight final hash words, rendered in
lowercase hexadecimal exactly as `hexdigest()` does.
-/

/-- 32-bit right rotation. -/
def rotr32 (n x : Nat) : Nat := ((x >>> n) ||| (x <<< (32 - n))) % 2 ^ 32

/-- FIPS 180-4 `Σ0`. -/
def bSig0 (x : Nat) : Nat := rotr32 2 x ^^^ rotr32 13 x ^^^ rotr32 22 x

/-- FIPS 180-4 `Σ1`. -/
def bSig1 (x : Nat) : Nat := rotr32 6 x ^^^ rotr32 11 x ^^^ rotr32 25 x

/-- FIPS 180-4 `σ0`. -/
def sSig0 (x : Nat) : Nat := rotr32 7 x ^^^ rotr32 18 x ^^^ (x >>> 3)

/-- FIPS 180-4 `σ1`. -/
def sSig1 (x : Nat) : Nat := rotr32 17 x ^^^ rotr32 19 x ^^^ (x >>> 10)

/-- FIPS 180-4 `Ch`, with 32-bit complement. -/
def ch32 (x y z : Nat) : Nat := (x &&& y) ^^^ ((x ^^^ (2 ^ 32 - 1)) &&& z)

/-- FIPS 180-4 `Maj`. -/
def maj32 (x y z : Nat) : Nat := (x &&& y) ^^^ (x &&& z) ^^^ (y &&& z)

/-- The 64 SHA-256 round constants of FIPS 180-4 (the fractional parts of
the cube roots of the first 64 primes), written in decimal. -/
def sha256K : List Nat :=
  [1116352408, 1899447441, 3049323471, 3921009573,
   961987163, 1508970993, 2453635748, 2870763221,
   3624381080, 310598401, 607225278, 1426881987,
   1925078388, 2162078206, 2614888103, 3248222580,
   3835390401, 4022224774, 264347078, 604807628,
   770255983, 1249150122, 1555081692, 1996064986,
   2554220882, 2821834349, 2952996808, 3210313671,
   3336571891, 3584528711, 113926993, 338241895,
   666307205, 773529912, 1294757372, 1396182291,
   1695183700, 1986661051, 2177026350, 2456956037,
   2730485921, 2820302411, 3259730800, 3345764771,
   3516065817, 3600352804, 4094571909, 275423344,
   430227734, 506948616, 659060556, 883997877,
   958139571, 1322822218, 1537002063, 1747873779,
   1955562222, 2024104815, 2227730452, 2361852424,
   2428436474, 2756734187, 3204031479, 3329325298]

/-- The eight SHA-256 working variables. -/
structure Sha8 where
  a : Nat
  b : Nat
  c : Nat
  d : Nat
  e : Nat
  f : Nat
  g : Nat
  h : Nat
deriving DecidableEq, Repr

/-- The SHA-256 initial hash value of FIPS 180-4 (the fractional parts of
the square roots of the first 8 primes), written in decimal. -/
def sha256H0 : Sha8 :=
  ⟨1779033703, 3144134277, 1013904242, 2773480762,
   1359893119, 2600822924, 528734635, 1541459225⟩

/-- `n` as `k` big-endian bytes (the message-length trailer). -/
def toBE : Nat → Nat → List Nat
  | 0, _ => []
  | k + 1, n => (n / 256 ^ k % 256) :: toBE k (n % 256 ^ k)

/-- SHA-256 message padding: `0x80`, zeros to 56 mod 64, then the bit
length as eight big-endian bytes. -/
def sha256pad (msg : List Nat) : List Nat :=
  msg ++ 0x80 :: List.replicate ((64 - (msg.length + 9) % 64) % 64) 0 ++
    toBE 8 (8 * msg.length)

/-- Big-endian assembly of bytes into 32-bit words. -/
def toWords : List Nat → List Nat
  | b0 :: b1 :: b2 :: b3 :: rest =>
      ((b0 % 256) * 16777216 + (b1 % 256) * 65536 + (b2 % 256) * 256 + b3 % 256)
        :: toWords rest
  | _ => []

/-- Extend a 16-word block to the 64-word message schedule: `fuel` more
words, each `σ1(W[i-2]) + W[i-7] + σ0(W[i-15]) + W[i-16] mod 2^32`. -/
def extendW : Nat → List Nat → List Nat
  | 0, w => w
  | fuel + 1, w =>
      extendW fuel (w ++ [(sSig1 (w.getD (w.length - 2) 0) + w.getD (w.length - 7) 0 +
        sSig0 (w.getD (w.length - 15) 0) + w.getD (w.length - 16) 0) % 2 ^ 32])

/-- One SHA-256 round: update the working variables with a schedule word
and its round constant. -/
def sha256Round (s : Sha8) (wk : Nat × Nat) : Sha8 :=
  let t1 := (s.h + bSig1 s.e + ch32 s.e s.f s.g + wk.2 + wk.1) % 2 ^ 32
  let t2 := (bSig0 s.a + maj32 s.a s.b s.c) % 2 ^ 32
  ⟨(t1 + t2) % 2 ^ 32, s.a, s.b, s.c, (s.d + t1) % 2 ^ 32, s.e, s.f, s.g⟩

/-- Compress one 16-word block into the running hash. -/
def sha256Block (hs : Sha8) (block : List Nat) : Sha8 :=
  let w := extendW 48 block
  let s := (w.zip sha256K).foldl sha256Round hs
  ⟨(hs.a + s.a) % 2 ^ 32, (hs.b + s.b) % 2 ^ 32, (hs.c + s.c) % 2 ^ 32,
   (hs.d + s.d) % 2 ^ 32, (hs.e + s.e) % 2 ^ 32, (hs.f + s.f) % 2 ^ 32,
   (hs.g + s.g) % 2 ^ 32, (hs.h + s.h) % 2 ^ 32⟩

/-- Fold the compression over the word stream, sixteen words per block. -/
def sha256Blocks (hs : Sha8) : List Nat → Sha8
  | w0 :: w1 :: w2 :: w3 :: w4 :: w5 :: w6 :: w7 ::
      w8 :: w9 :: w10 :: w11 :: w12 :: w13 :: w14 :: w15 :: rest =>
      sha256Blocks
        (sha256Block hs [w0, w1, w2, w3, w4, w5, w6, w7,
          w8, w9, w10, w11, w12, w13, w14, w15]) rest
  | _ => hs

/-- The SHA-256 digest of a byte string, as the 256-bit natural number
formed by the big-endian concatenation of the eight final hash words.
Every compression output is already reduced modulo `2^32`; the explicit
reductions here restate that 32-bit width, making the 256-bit bound on
the digest definitional without changing its value. -/
def sha256Nat (msg : List Nat) : Nat :=
  let s := sha256Blocks sha256H0 (toWords (sha256pad msg))
  ((((((s.a % 2 ^ 32 * 2 ^ 32 + s.b % 2 ^ 32) * 2 ^ 32 + s.c % 2 ^ 32) * 2 ^ 32 +
      s.d % 2 ^ 32) * 2 ^ 32 + s.e % 2 ^ 32) * 2 ^ 32 + s.f % 2 ^ 32) * 2 ^ 32 +
      s.g % 2 ^ 32) * 2 ^ 32 + s.h % 2 ^ 32

/-- `hashlib.sha256(x).hexdigest()`: the digest as 64 lowercase hex
characters. -/
def sha256hex (msg : List Nat) : List Char := hexPad 64 (sha256Nat msg)

/-- UTF-8 encoding of the canonical JSON.  The escaped JSON is pure ASCII
(`ensure_ascii=True` replaced every non-ASCII code point with `\uxxxx`
sequences), so the encoding is the code-point identity. -/
def utf8Ascii (l : List Char) : List Nat := l.map Char.toNat

/-- `AuditLog.calculate_checksum` from `audit.py`: SHA-256 hexdigest of
the canonical key-sorted JSON of the nine projected fields. -/
def AuditLog.calculate_checksum (r : AuditLog) : List Char :=
  sha256hex (utf8Ascii (canonicalJson r))

/-- A raised Python exception, carrying its message. -/
inductive PyExn where
  | valueError (msg : List Char)
deriving DecidableEq, Repr

/-- The `before_insert` listener `calculate_checksum_before_insert` from
`audit.py`: stores the computed checksum on the row about to be written. -/
def calculate_checksum_before_insert (r : AuditLog) : AuditLog :=
  { r with checksum := some r.calculate_checksum }

/-- The `before_update` listener `prevent_audit_log_updates` from
`audit.py`: unconditionally raises
`ValueError("Audit logs are immutable and cannot be updated")`. -/
def prevent_audit_log_updates (_r : AuditLog) : Except PyExn Unit :=
  Except.error (PyExn.valueError "Audit logs are immutable and cannot be updated".toList)

/-- The `before_delete` listener `prevent_audit_log_deletions` from
`audit.py`: unconditionally raises
`ValueError("Audit logs cannot be deleted except through retention policies")`. -/
def prevent_audit_log_deletions (_r : AuditLog) : Except PyExn Unit :=
  Except.error
    (PyExn.valueError "Audit logs cannot be deleted except through retention policies".toList)

/-- The persisted audit-log table. -/
structure AuditDB where
  rows : List AuditLog
deriving DecidableEq, Repr

/-- An ORM insert flush: the `before_insert` listener computes and stores
the checksum, then the row is appended. -/
def AuditDB.flushInsert (db : AuditDB) (r : AuditLog) : AuditDB :=
  ⟨db.rows ++ [calculate_checksum_before_insert r]⟩

/-- An ORM update flush targeting row `i` with new contents `r`: when the
row exists, the `before_update` listener fires before the UPDATE is
emitted; a raise aborts the flush, so an error result means the table was
not written. -/
def AuditDB.flushUpdate (db : AuditDB) (i : Nat) (r : AuditLog) :
    Except PyExn AuditDB :=
  match db.rows[i]? with
  | none => Except.ok db
  | some _ => do
      prevent_audit_log_updates r
      Except.ok ⟨db.rows.set i r⟩

/-- An ORM delete flush targeting row `i`: when the row exists, the
`before_delete` listener fires before the DELETE is emitted; a raise
aborts the flush. -/
def AuditDB.flushDelete (db : AuditDB) (i : Nat) : Except PyExn AuditDB :=
  match db.rows[i]? with
  | none => Except.ok db
  | some r => do
      prevent_audit_log_deletions r
      Except.ok ⟨db.rows.eraseIdx i⟩

/-- The state a session observes after a flush: the new table on success,
the old one when the flush raised. -/
def AuditDB.afterFlush (db : AuditDB) : Except PyExn AuditDB → AuditDB
  | Except.ok db2 => db2
  | Except.error _ => db

/-!
A reader for one JSON escape unit, used only to prove that `escape` is
injective: `readUnit` recovers from any escaped stream its first code
point and the unconsumed tail, so `readUnit (escChar c ++ t) =
some (c.toNat, t)` and induction gives injectivity of `escape`.
-/

/-- The value of a lowercase hexadecimal digit character. -/
def hexVal (c : Char) : Option Nat :=
  let n := c.toNat
  if 48 ≤ n ∧ n ≤ 57 then some (n - 48)
  else if 97 ≤ n ∧ n ≤ 102 then some (n - 87)
  else none

/-- Four hexadecimal digit characters as one number. -/
def readHex4 (h1 h2 h3 h4 : Char) : Option Nat :=
  match hexVal h1, hexVal h2, hexVal h3, hexVal h4 with
  | some d1, some d2, some d3, some d4 =>
      some (((d1 * 16 + d2) * 16 + d3) * 16 + d4)
  | _, _, _, _ => none

/-- Read one escape unit off the front of a JSON-escaped stream: an
ordinary character stands for itself, a two-character escape for its
control character, `\\uxxxx` for a BMP code point — a high surrogate
demanding an immediately following low surrogate, the pair combining into
one supplementary code point. -/
def readUnit : List Char → Option (Nat × List Char)
  | [] => none
  | c :: t =>
    if c = '\\' then
      match t with
      | [] => none
      | e :: t1 =>
        if e = '"' then some (34, t1)
        else if e = '\\' then some (92, t1)
        else if e = 'b' then some (8, t1)
        else if e = 'f' then some (12, t1)
        else if e = 'n' then some (10, t1)
        else if e = 'r' then some (13, t1)
        else if e = 't' then some (9, t1)
        else if e = 'u' then
          match t1 with
          | h1 :: h2 :: h3 :: h4 :: t2 =>
            match readHex4 h1 h2 h3 h4 with
            | none => none
            | some code =>
              if 55296 ≤ code ∧ code < 56320 then
                match t2 with
                | b1 :: b2 :: g1 :: g2 :: g3 :: g4 :: t3 =>
                  if b1 = '\\' ∧ b2 = 'u' then
                    match readHex4 g1 g2 g3 g4 with
                    | none => none
                    | some lo =>
                      if 56320 ≤ lo ∧ lo < 57344 then
                        some (65536 + (code - 55296) * 1024 + (lo - 56320), t3)
                      else none
                  else none
                | _ => none
              else if 56320 ≤ code ∧ code < 57344 then none
              else some (code, t2)
          | _ => none
        else none
    else some (c.toNat, t)

/-- `hexVal` inverts `hexDigitChar` on digit values. -/
theorem hexVal_hexDigitChar : ∀ d : Nat, d < 16 → hexVal (hexDigitChar d) = some d := by
  decide

/-- `hexPad 4` written out as its four digit characters. -/
theorem hexPad4_eq (n : Nat) :
    hexPad 4 n = [hexDigitChar (n / 4096), hexDigitChar (n % 4096 / 256),
      hexDigitChar (n % 4096 % 256 / 16), hexDigitChar (n % 4096 % 256 % 16)] := by
  norm_num [hexPad]

/-- `readHex4` inverts the four-digit rendering of any `m < 16^4`. -/
theorem readHex4_digits (m : Nat) (h : m < 65536) :
    readHex4 (hexDigitChar (m / 4096)) (hexDigitChar (m % 4096 / 256))
      (hexDigitChar (m % 4096 % 256 / 16)) (hexDigitChar (m % 4096 % 256 % 16))
      = some m := by
  unfold readHex4
  rw [hexVal_hexDigitChar _ (by omega), hexVal_hexDigitChar _ (by omega),
    hexVal_hexDigitChar _ (by omega), hexVal_hexDigitChar _ (by omega)]
  have : ((m / 4096 * 16 + m % 4096 / 256) * 16 + m % 4096 % 256 / 16) * 16 +
      m % 4096 % 256 % 16 = m := by omega
  simp [this]

/-- Every `Char` carries a valid Unicode scalar value: below the surrogate
range or above it and below `0x110000`. -/
theorem char_toNat_valid (c : Char) :
    c.toNat < 55296 ∨ (57343 < c.toNat ∧ c.toNat < 1114112) := c.valid

/-- Distinct characters have distinct code points. -/
theorem char_toNat_inj {c d : Char} (h : c.toNat = d.toNat) : c = d :=
  Char.ext (UInt32.ext h)

/-- `readUnit` on a `\\u` head, unfolded up to the blocked hex reads. -/
theorem readUnit_u (h1 h2 h3 h4 : Char) (t2 : List Char) :
    readUnit ('\\' :: 'u' :: h1 :: h2 :: h3 :: h4 :: t2) =
      match readHex4 h1 h2 h3 h4 with
      | none => none
      | some code =>
        if 55296 ≤ code ∧ code < 56320 then
          match t2 with
          | b1 :: b2 :: g1 :: g2 :: g3 :: g4 :: t3 =>
            if b1 = '\\' ∧ b2 = 'u' then
              match readHex4 g1 g2 g3 g4 with
              | none => none
              | some lo =>
                if 56320 ≤ lo ∧ lo < 57344 then
                  some (65536 + (code - 55296) * 1024 + (lo - 56320), t3)
                else none
            else none
          | _ => none
        else if 56320 ≤ code ∧ code < 57344 then none
        else some (code, t2) := rfl

/-- One escape unit reads back to its character and the untouched tail:
the round-trip that makes `escape` injective. -/
theorem readUnit_escChar (c : Char) (t : List Char) :
    readUnit (escChar c ++ t) = some (c.toNat, t) := by
  have hv := char_toNat_valid c
  by_cases h34 : c.toNat = 34
  · have hesc : escChar c = ['\\', '"'] := by simp [escChar, h34]
    rw [hesc, h34]; rfl
  by_cases h92 : c.toNat = 92
  · have hesc : escChar c = ['\\', '\\'] := by simp [escChar, h34, h92]
    rw [hesc, h92]; rfl
  by_cases h8 : c.toNat = 8
  · have hesc : escChar c = ['\\', 'b'] := by simp [escChar, h34, h92, h8]
    rw [hesc, h8]; rfl
  by_cases h12 : c.toNat = 12
  · have hesc : escChar c = ['\\', 'f'] := by simp [escChar, h34, h92, h8, h12]
    rw [hesc, h12]; rfl
  by_cases h10 : c.toNat = 10
  · have hesc : escChar c = ['\\', 'n'] := by simp [escChar, h34, h92, h8, h12, h10]
    rw [hesc, h10]; rfl
  by_cases h13 : c.toNat = 13
  · have hesc : escChar c = ['\\', 'r'] := by
      simp [escChar, h34, h92, h8, h12, h10, h13]
    rw [hesc, h13]; rfl
  by_cases h9 : c.toNat = 9
  · have hesc : escChar c = ['\\', 't'] := by
      simp [escChar, h34, h92, h8, h12, h10, h13, h9]
    rw [hesc, h9]; rfl
  by_cases hctl : c.toNat < 32
  · have hesc : escChar c = '\\' :: 'u' :: hexPad 4 c.toNat := by
      simp [escChar, h34, h92, h8, h12, h10, h13, h9, hctl]
    rw [hesc, hexPad4_eq]
    simp only [List.cons_append, List.nil_append]
    rw [readUnit_u, readHex4_digits c.toNat (by omega)]
    dsimp only
    rw [if_neg (by omega), if_neg (by omega)]
  by_cases hprint : c.toNat < 127
  · have hesc : escChar c = [c] := by
      simp [escChar, h34, h92, h8, h12, h10, h13, h9, hctl, hprint]
    have hnb : c ≠ '\\' := fun he => h92 (by rw [he]; rfl)
    rw [hesc]
    simp only [List.cons_append, List.nil_append]
    show (if c = '\\' then _ else some (c.toNat, t)) = some (c.toNat, t)
    rw [if_neg hnb]
  by_cases hbmp : c.toNat < 65536
  · have hesc : escChar c = '\\' :: 'u' :: hexPad 4 c.toNat := by
      simp [escChar, h34, h92, h8, h12, h10, h13, h9, hctl, hprint, hbmp]
    have hrange : c.toNat < 55296 ∨ 57343 < c.toNat := by
      rcases hv with h | h
      · exact Or.inl h
      · exact Or.inr h.1
    rw [hesc, hexPad4_eq]
    simp only [List.cons_append, List.nil_append]
    rw [readUnit_u, readHex4_digits c.toNat (by omega)]
    dsimp only
    rw [if_neg (by omega), if_neg (by omega)]
  · have hup : c.toNat < 1114112 := by
      rcases hv with h | h
      · omega
      · exact h.2
    have hesc : escChar c =
        '\\' :: 'u' :: hexPad 4 (55296 + (c.toNat - 65536) / 1024) ++
          '\\' :: 'u' :: hexPad 4 (56320 + (c.toNat - 65536) % 1024) := by
      simp [escChar, h34, h92, h8, h12, h10, h13, h9, hctl, hprint, hbmp]
    rw [hesc, hexPad4_eq, hexPad4_eq]
    simp only [List.cons_append, List.nil_append, List.append_assoc]
    rw [readUnit_u, readHex4_digits (55296 + (c.toNat - 65536) / 1024) (by omega)]
    dsimp only
    rw [if_pos (show 55296 ≤ 55296 + (c.toNat - 65536) / 1024 ∧
      55296 + (c.toNat - 65536) / 1024 < 56320 by omega)]
    try dsimp only
    rw [if_pos (show ('\\' : Char) = '\\' ∧ ('u' : Char) = 'u' from ⟨rfl, rfl⟩)]
    rw [readHex4_digits (56320 + (c.toNat - 65536) % 1024) (by omega)]
    try dsimp only
    rw [if_pos (show 56320 ≤ 56320 + (c.toNat - 65536) % 1024 ∧
      56320 + (c.toNat - 65536) % 1024 < 57344 by omega)]
    simp only [Option.some.injEq, Prod.mk.injEq]
    exact ⟨by omega, trivial⟩

/-- Every escape unit is nonempty: an empty one would make `readUnit`
return `none` where the round-trip says `some`. -/
theorem escChar_length_pos (c : Char) : 0 < (escChar c).length := by
  rw [List.length_pos]
  intro h
  have h2 := readUnit_escChar c []
  rw [h] at h2
  simp [readUnit] at h2

/-- `escape` on a cons, by definition. -/
theorem escape_cons (c : Char) (cs : List Char) :
    escape (c :: cs) = escChar c ++ escape cs := rfl

/-- `escape` is injective: equal escapes come from equal strings. -/
theorem escape_inj : ∀ {s1 s2 : List Char}, escape s1 = escape s2 → s1 = s2 := by
  intro s1
  induction s1 with
  | nil =>
    intro s2 h
    cases s2 with
    | nil => rfl
    | cons d ds =>
      exfalso
      have hl := congrArg List.length h
      rw [escape_cons] at hl
      simp only [escape, List.length_nil, List.length_append] at hl
      have := escChar_length_pos d
      omega
  | cons c cs ih =>
    intro s2 h
    cases s2 with
    | nil =>
      exfalso
      have hl := congrArg List.length h
      rw [escape_cons] at hl
      simp only [escape, List.length_nil, List.length_append] at hl
      have := escChar_length_pos c
      omega
    | cons d ds =>
      rw [escape_cons, escape_cons] at h
      have h2 := congrArg readUnit h
      rw [readUnit_escChar, readUnit_escChar] at h2
      simp only [Option.some.injEq, Prod.mk.injEq] at h2
      rw [char_toNat_inj h2.1, ih h2.2]

/-- Left cancellation of list append. -/
theorem app_cancel_left {α : Type} {p x y : List α} (h : p ++ x = p ++ y) : x = y := by
  induction p with
  | nil => simpa using h
  | cons a p ih =>
    simp only [List.cons_append, List.cons.injEq] at h
    exact ih h.2

/-- Right cancellation of list append. -/
theorem app_cancel_right {α : Type} {x y s : List α} (h : x ++ s = y ++ s) : x = y := by
  have hl : x.length = y.length := by
    have := congrArg List.length h
    simp only [List.length_append] at this
    omega
  exact (List.append_inj h hl).1

/-- A JSON string literal determines its string. -/
theorem encStr_inj {s1 s2 : List Char} (h : encStr s1 = encStr s2) : s1 = s2 := by
  unfold encStr at h
  simp only [List.cons.injEq] at h
  have hl : (escape s1).length = (escape s2).length := by
    have := congrArg List.length h.2
    simp only [List.length_append] at this
    omega
  exact escape_inj (List.append_inj h.2 hl).1

/-- A JSON optional-string value determines its option. -/
theorem encOpt_inj {o1 o2 : Option (List Char)} (h : encOpt o1 = encOpt o2) :
    o1 = o2 := by
  cases o1 with
  | none =>
    cases o2 with
    | none => rfl
    | some s2 =>
      exfalso
      simp only [encOpt, encStr, List.cons.injEq] at h
      exact absurd h.1 (by decide)
  | some s1 =>
    cases o2 with
    | none =>
      exfalso
      simp only [encOpt, encStr, List.cons.injEq] at h
      exact absurd h.1 (by decide)
    | some s2 =>
      simp only [encOpt] at h
      rw [encStr_inj h]

/-- `digitChar` separates digit values. -/
theorem digitChar_inj : ∀ a : Nat, a < 10 → ∀ b : Nat, b < 10 →
    digitChar a = digitChar b → a = b := by
  decide

/-- Zero-padded decimal rendering has exactly the requested width. -/
theorem pad_length : ∀ w n : Nat, (pad w n).length = w
  | 0, _ => rfl
  | w + 1, n => by simp [pad, pad_length w]

/-- Zero-padded decimal rendering separates values below `10^w`. -/
theorem pad_inj : ∀ w m n : Nat, m < 10 ^ w → n < 10 ^ w →
    pad w m = pad w n → m = n := by
  intro w
  induction w with
  | zero =>
    intro m n hm hn _
    simp only [pow_zero] at hm hn
    omega
  | succ w ih =>
    intro m n hm hn h
    simp only [pad, List.cons.injEq] at h
    have hpow : 0 < 10 ^ w := Nat.pos_pow_of_pos w (by norm_num)
    have hmq : m / 10 ^ w < 10 := by
      rw [Nat.div_lt_iff_lt_mul hpow]
      calc m < 10 ^ (w + 1) := hm
        _ = 10 * 10 ^ w := by ring
    have hnq : n / 10 ^ w < 10 := by
      rw [Nat.div_lt_iff_lt_mul hpow]
      calc n < 10 ^ (w + 1) := hn
        _ = 10 * 10 ^ w := by ring
    have hq := digitChar_inj _ hmq _ hnq h.1
    have hr := ih (m % 10 ^ w) (n % 10 ^ w) (Nat.mod_lt _ hpow) (Nat.mod_lt _ hpow) h.2
    calc m = 10 ^ w * (m / 10 ^ w) + m % 10 ^ w := (Nat.div_add_mod _ _).symm
      _ = 10 ^ w * (n / 10 ^ w) + n % 10 ^ w := by rw [hq, hr]
      _ = n := Nat.div_add_mod _ _

/-- `isoformat` separates well-formed datetimes. -/
theorem isoformat_inj : ∀ t1 t2 : PyDateTime, t1.wf → t2.wf →
    t1.isoformat = t2.isoformat → t1 = t2 := by
  intro t1 t2 w1 w2 h
  obtain ⟨y1, mo1, d1, hh1, mi1, s1, u1⟩ := t1
  obtain ⟨y2, mo2, d2, hh2, mi2, s2, u2⟩ := t2
  obtain ⟨wy1, wmo1, wd1, wh1, wmi1, ws1, wu1⟩ := w1
  obtain ⟨wy2, wmo2, wd2, wh2, wmi2, ws2, wu2⟩ := w2
  dsimp only at wy1 wmo1 wd1 wh1 wmi1 ws1 wu1 wy2 wmo2 wd2 wh2 wmi2 ws2 wu2
  unfold PyDateTime.isoformat at h
  dsimp only at h
  simp only [List.append_assoc, List.cons_append] at h
  obtain ⟨hy, h⟩ := List.append_inj h (by rw [pad_length, pad_length])
  have ey : y1 = y2 := pad_inj 4 _ _ (by norm_num; omega) (by norm_num; omega) hy
  rw [List.cons.injEq] at h
  obtain ⟨-, h⟩ := h
  obtain ⟨hmo, h⟩ := List.append_inj h (by rw [pad_length, pad_length])
  have emo : mo1 = mo2 := pad_inj 2 _ _ (by norm_num; omega) (by norm_num; omega) hmo
  rw [List.cons.injEq] at h
  obtain ⟨-, h⟩ := h
  obtain ⟨hd, h⟩ := List.append_inj h (by rw [pad_length, pad_length])
  have ed : d1 = d2 := pad_inj 2 _ _ (by norm_num; omega) (by norm_num; omega) hd
  rw [List.cons.injEq] at h
  obtain ⟨-, h⟩ := h
  obtain ⟨hh, h⟩ := List.append_inj h (by rw [pad_length, pad_length])
  have eh : hh1 = hh2 := pad_inj 2 _ _ (by norm_num; omega) (by norm_num; omega) hh
  rw [List.cons.injEq] at h
  obtain ⟨-, h⟩ := h
  obtain ⟨hmi, h⟩ := List.append_inj h (by rw [pad_length, pad_length])
  have emi : mi1 = mi2 := pad_inj 2 _ _ (by norm_num; omega) (by norm_num; omega) hmi
  rw [List.cons.injEq] at h
  obtain ⟨-, h⟩ := h
  obtain ⟨hs, h⟩ := List.append_inj h (by rw [pad_length, pad_length])
  have es : s1 = s2 := pad_inj 2 _ _ (by norm_num; omega) (by norm_num; omega) hs
  have eu : u1 = u2 := by
    by_cases hz1 : u1 = 0 <;> by_cases hz2 : u2 = 0
    · omega
    · rw [if_pos hz1, if_neg hz2] at h
      exact absurd h (by simp)
    · rw [if_neg hz1, if_pos hz2] at h
      exact absurd h (by simp)
    · rw [if_neg hz1, if_neg hz2, List.cons.injEq] at h
      exact pad_inj 6 _ _ (by norm_num; omega) (by norm_num; omega) h.2
  rw [ey, emo, ed, eh, emi, es, eu]

/-- The digest is a 256-bit number. -/
theorem sha256Nat_lt (msg : List Nat) :
    sha256Nat msg <
      115792089237316195423570985008687907853269984665640564039457584007913129639936 := by
  unfold sha256Nat
  have h32 : (2 : Nat) ^ 32 = 4294967296 := by norm_num
  simp only [h32]
  omega

/-- A concrete baseline audit record used by witnesses and
counterexamples. -/
def rAudit : AuditLog :=
  { timestamp := ⟨2024, 1, 2, 3, 4, 5, 0⟩
    event_type := "authentication".toList
    action := "login".toList
    result := "success".toList
    actor_upn := some "svc@example.com".toList
    target_resource_type := none
    target_resource_id := none
    description := "interactive login".toList
    source_ip := some "10.0.0.1".toList
    severity := "info".toList
    risk_score := 10
    details := none
    session_id := none
    retention_date := none
    checksum := none }

/-- Claim C2: on any persisted audit row, an ORM update flush raises the
immutability `ValueError` and leaves the table unchanged, and an ORM
delete flush (the only deletion path the model exposes; a retention purge
bypasses the ORM) likewise raises and leaves the table unchanged. -/
theorem C2_audit_immutability (db : AuditDB) (i : Nat) (r old : AuditLog)
    (h : db.rows[i]? = some old) :
    db.flushUpdate i r =
      Except.error (PyExn.valueError
        "Audit logs are immutable and cannot be updated".toList) ∧
    db.afterFlush (db.flushUpdate i r) = db ∧
    db.flushDelete i =
      Except.error (PyExn.valueError
        "Audit logs cannot be deleted except through retention policies".toList) ∧
    db.afterFlush (db.flushDelete i) = db := by
  have hu : db.flushUpdate i r =
      Except.error (PyExn.valueError
        "Audit logs are immutable and cannot be updated".toList) := by
    unfold AuditDB.flushUpdate
    rw [h]
    rfl
  have hd : db.flushDelete i =
      Except.error (PyExn.valueError
        "Audit logs cannot be deleted except through retention policies".toList) := by
    unfold AuditDB.flushDelete
    rw [h]
    rfl
  exact ⟨hu, by rw [hu]; rfl, hd, by rw [hd]; rfl⟩

/-- Claim C2, witness: the theorem applied to a one-row table holding the
baseline record. -/
theorem C2_witness :
    AuditDB.flushUpdate ⟨[rAudit]⟩ 0 rAudit =
      Except.error (PyExn.valueError
        "Audit logs are immutable and cannot be updated".toList) :=
  (C2_audit_immutability ⟨[rAudit]⟩ 0 rAudit rAudit rfl).1

/-- Claim C10: the checksum is a function of the nine projected fields
alone — two records agreeing on them have equal checksums whatever their
other columns hold, and replacing every non-projected column of a record
(severity, risk score, details, session id, retention date, even the
stored checksum) leaves its computed checksum unchanged, so an
out-of-band change confined to those columns is invisible to checksum
comparison. -/
theorem C10_checksum_projection :
    (∀ r1 r2 : AuditLog, r1.timestamp = r2.timestamp →
      r1.event_type = r2.event_type → r1.action = r2.action →
      r1.result = r2.result → r1.actor_upn = r2.actor_upn →
      r1.target_resource_type = r2.target_resource_type →
      r1.target_resource_id = r2.target_resource_id →
      r1.description = r2.description → r1.source_ip = r2.source_ip →
      r1.calculate_checksum = r2.calculate_checksum) ∧
    (∀ (r : AuditLog) (sev : List Char) (rs : Nat)
      (det sid cks : Option (List Char)) (rd : Option PyDateTime),
      (AuditLog.mk r.timestamp r.event_type r.action r.result r.actor_upn
        r.target_resource_type r.target_resource_id r.description r.source_ip
        sev rs det sid rd cks).calculate_checksum = r.calculate_checksum) := by
  constructor
  · intro r1 r2 h1 h2 h3 h4 h5 h6 h7 h8 h9
    unfold AuditLog.calculate_checksum canonicalJson
    rw [h1, h2, h3, h4, h5, h6, h7, h8, h9]
  · intro r sev rs det sid cks rd
    rfl

/-- Claim C10, witness: two concrete records differing only in severity,
risk score and stored checksum have equal computed checksums. -/
theorem C10_witness :
    ({ rAudit with
        severity := "critical".toList
        risk_score := 95
        checksum := some "tampered".toList } : AuditLog).calculate_checksum =
      rAudit.calculate_checksum :=
  C10_checksum_projection.1 _ _ rfl rfl rfl rfl rfl rfl rfl rfl rfl

/-- Claim C8, counterexample: the checksum is a 256-bit hash of an
unbounded input, so by pigeonhole two records that agree on everything
except the description — which differs — share a checksum: "changing any
one of these fields changes the checksum" cannot hold universally. -/
theorem C8_counterexample :
    ∃ d1 d2 : List Char, d1 ≠ d2 ∧
      ({ rAudit with description := d1 } : AuditLog).calculate_checksum =
        ({ rAudit with description := d2 } : AuditLog).calculate_checksum := by
  classical
  obtain ⟨d1, d2, hne, heq⟩ := Finite.exists_ne_map_eq_of_infinite
    (fun d : List Char =>
      (⟨sha256Nat (utf8Ascii (canonicalJson { rAudit with description := d })),
        sha256Nat_lt _⟩ :
        Fin 115792089237316195423570985008687907853269984665640564039457584007913129639936))
  refine ⟨d1, d2, hne, ?_⟩
  have hdig := congrArg Fin.val heq
  simp only at hdig
  unfold AuditLog.calculate_checksum sha256hex
  rw [hdig]

/-- Claim C8 as amended: the checksum is deterministic on the nine-field
projection; changing any single one of the nine fields (the others held
fixed, the timestamps well-formed) changes the canonical key-sorted JSON
string over which the checksum is computed — equal checksums for such a
pair would therefore exhibit a SHA-256 collision, though the 256-bit
checksum itself cannot separate all values of an unbounded field; and the
checksum is computed and stored by the `before_insert` listener, so the
appended row carries `checksum = calculate_checksum(row)`. -/
theorem C8_checksum_scheme :
    (∀ r1 r2 : AuditLog, r1.timestamp = r2.timestamp →
      r1.event_type = r2.event_type → r1.action = r2.action →
      r1.result = r2.result → r1.actor_upn = r2.actor_upn →
      r1.target_resource_type = r2.target_resource_type →
      r1.target_resource_id = r2.target_resource_id →
      r1.description = r2.description → r1.source_ip = r2.source_ip →
      r1.calculate_checksum = r2.calculate_checksum) ∧
    (∀ r1 r2 : AuditLog, r1.timestamp = r2.timestamp →
      r1.event_type = r2.event_type → r1.result = r2.result →
      r1.actor_upn = r2.actor_upn →
      r1.target_resource_type = r2.target_resource_type →
      r1.target_resource_id = r2.target_resource_id →
      r1.description = r2.description → r1.source_ip = r2.source_ip →
      r1.action ≠ r2.action → canonicalJson r1 ≠ canonicalJson r2) ∧
    (∀ r1 r2 : AuditLog, r1.timestamp = r2.timestamp →
      r1.event_type = r2.event_type → r1.action = r2.action →
      r1.result = r2.result →
      r1.target_resource_type = r2.target_resource_type →
      r1.target_resource_id = r2.target_resource_id →
      r1.description = r2.description → r1.source_ip = r2.source_ip →
      r1.actor_upn ≠ r2.actor_upn → canonicalJson r1 ≠ canonicalJson r2) ∧
    (∀ r1 r2 : AuditLog, r1.timestamp = r2.timestamp →
      r1.event_type = r2.event_type → r1.action = r2.action →
      r1.result = r2.result → r1.actor_upn = r2.actor_upn →
      r1.target_resource_type = r2.target_resource_type →
      r1.target_resource_id = r2.target_resource_id →
      r1.source_ip = r2.source_ip →
      r1.description ≠ r2.description → canonicalJson r1 ≠ canonicalJson r2) ∧
    (∀ r1 r2 : AuditLog, r1.timestamp = r2.timestamp →
      r1.action = r2.action → r1.result = r2.result →
      r1.actor_upn = r2.actor_upn →
      r1.target_resource_type = r2.target_resource_type →
      r1.target_resource_id = r2.target_resource_id →
      r1.description = r2.description → r1.source_ip = r2.source_ip →
      r1.event_type ≠ r2.event_type → canonicalJson r1 ≠ canonicalJson r2) ∧
    (∀ r1 r2 : AuditLog, r1.timestamp = r2.timestamp →
      r1.event_type = r2.event_type → r1.action = r2.action →
      r1.actor_upn = r2.actor_upn →
      r1.target_resource_type = r2.target_resource_type →
      r1.target_resource_id = r2.target_resource_id →
      r1.description = r2.description → r1.source_ip = r2.source_ip →
      r1.result ≠ r2.result → canonicalJson r1 ≠ canonicalJson r2) ∧
    (∀ r1 r2 : AuditLog, r1.timestamp = r2.timestamp →
      r1.event_type = r2.event_type → r1.action = r2.action →
      r1.result = r2.result → r1.actor_upn = r2.actor_upn →
      r1.target_resource_type = r2.target_resource_type →
      r1.target_resource_id = r2.target_resource_id →
      r1.description = r2.description →
      r1.source_ip ≠ r2.source_ip → canonicalJson r1 ≠ canonicalJson r2) ∧
    (∀ r1 r2 : AuditLog, r1.timestamp = r2.timestamp →
      r1.event_type = r2.event_type → r1.action = r2.action →
      r1.result = r2.result → r1.actor_upn = r2.actor_upn →
      r1.target_resource_type = r2.target_resource_type →
      r1.description = r2.description → r1.source_ip = r2.source_ip →
      r1.target_resource_id ≠ r2.target_resource_id →
      canonicalJson r1 ≠ canonicalJson r2) ∧
    (∀ r1 r2 : AuditLog, r1.timestamp = r2.timestamp →
      r1.event_type = r2.event_type → r1.action = r2.action →
      r1.result = r2.result → r1.actor_upn = r2.actor_upn →
      r1.target_resource_id = r2.target_resource_id →
      r1.description = r2.description → r1.source_ip = r2.source_ip →
      r1.target_resource_type ≠ r2.target_resource_type →
      canonicalJson r1 ≠ canonicalJson r2) ∧
    (∀ r1 r2 : AuditLog, r1.timestamp.wf → r2.timestamp.wf →
      r1.event_type = r2.event_type → r1.action = r2.action →
      r1.result = r2.result → r1.actor_upn = r2.actor_upn →
      r1.target_resource_type = r2.target_resource_type →
      r1.target_resource_id = r2.target_resource_id →
      r1.description = r2.description → r1.source_ip = r2.source_ip →
      r1.timestamp ≠ r2.timestamp → canonicalJson r1 ≠ canonicalJson r2) ∧
    (∀ (db : AuditDB) (r : AuditLog),
      (db.flushInsert r).rows =
        db.rows ++ [{ r with checksum := some r.calculate_checksum }]) := by
  refine ⟨?_, ?_, ?_, ?_, ?_, ?_, ?_, ?_, ?_, ?_, ?_⟩
  · intro r1 r2 h1 h2 h3 h4 h5 h6 h7 h8 h9
    unfold AuditLog.calculate_checksum canonicalJson
    rw [h1, h2, h3, h4, h5, h6, h7, h8, h9]
  · intro r1 r2 h1 h2 h3 h4 h5 h6 h7 h8 hne hjson
    apply hne
    unfold canonicalJson at hjson
    rw [h1, h2, h3, h4, h5, h6, h7, h8] at hjson
    simp only [List.append_assoc] at hjson
    replace hjson := app_cancel_left hjson
    exact encStr_inj (app_cancel_right hjson)
  · intro r1 r2 h1 h2 h3 h4 h5 h6 h7 h8 hne hjson
    apply hne
    unfold canonicalJson at hjson
    rw [h1, h2, h3, h4, h5, h6, h7, h8] at hjson
    simp only [List.append_assoc] at hjson
    replace hjson := app_cancel_left hjson
    replace hjson := app_cancel_left hjson
    replace hjson := app_cancel_left hjson
    exact encOpt_inj (app_cancel_right hjson)
  · intro r1 r2 h1 h2 h3 h4 h5 h6 h7 h8 hne hjson
    apply hne
    unfold canonicalJson at hjson
    rw [h1, h2, h3, h4, h5, h6, h7, h8] at hjson
    simp only [List.append_assoc] at hjson
    replace hjson := app_cancel_left hjson
    replace hjson := app_cancel_left hjson
    replace hjson := app_cancel_left hjson
    replace hjson := app_cancel_left hjson
    replace hjson := app_cancel_left hjson
    exact encStr_inj (app_cancel_right hjson)
  · intro r1 r2 h1 h2 h3 h4 h5 h6 h7 h8 hne hjson
    apply hne
    unfold canonicalJson at hjson
    rw [h1, h2, h3, h4, h5, h6, h7, h8] at hjson
    simp only [List.append_assoc] at hjson
    replace hjson := app_cancel_left hjson
    replace hjson := app_cancel_left hjson
    replace hjson := app_cancel_left hjson
    replace hjson := app_cancel_left hjson
    replace hjson := app_cancel_left hjson
    replace hjson := app_cancel_left hjson
    replace hjson := app_cancel_left hjson
    exact encStr_inj (app_cancel_right hjson)
  · intro r1 r2 h1 h2 h3 h4 h5 h6 h7 h8 hne hjson
    apply hne
    unfold canonicalJson at hjson
    rw [h1, h2, h3, h4, h5, h6, h7, h8] at hjson
    simp only [List.append_assoc] at hjson
    replace hjson := app_cancel_left hjson
    replace hjson := app_cancel_left hjson
    replace hjson := app_cancel_left hjson
    replace hjson := app_cancel_left hjson
    replace hjson := app_cancel_left hjson
    replace hjson := app_cancel_left hjson
    replace hjson := app_cancel_left hjson
    replace hjson := app_cancel_left hjson
    replace hjson := app_cancel_left hjson
    exact encStr_inj (app_cancel_right hjson)
  · intro r1 r2 h1 h2 h3 h4 h5 h6 h7 h8 hne hjson
    apply hne
    unfold canonicalJson at hjson
    rw [h1, h2, h3, h4, h5, h6, h7, h8] at hjson
    simp only [List.append_assoc] at hjson
    replace hjson := app_cancel_left hjson
    replace hjson := app_cancel_left hjson
    replace hjson := app_cancel_left hjson
    replace hjson := app_cancel_left hjson
    replace hjson := app_cancel_left hjson
    replace hjson := app_cancel_left hjson
    replace hjson := app_cancel_left hjson
    replace hjson := app_cancel_left hjson
    replace hjson := app_cancel_left hjson
    replace hjson := app_cancel_left hjson
    replace hjson := app_cancel_left hjson
    exact encOpt_inj (app_cancel_right hjson)
  · intro r1 r2 h1 h2 h3 h4 h5 h6 h7 h8 hne hjson
    apply hne
    unfold canonicalJson at hjson
    rw [h1, h2, h3, h4, h5, h6, h7, h8] at hjson
    simp only [List.append_assoc] at hjson
    iterate 13 replace hjson := app_cancel_left hjson
    exact encOpt_inj (app_cancel_right hjson)
  · intro r1 r2 h1 h2 h3 h4 h5 h6 h7 h8 hne hjson
    apply hne
    unfold canonicalJson at hjson
    rw [h1, h2, h3, h4, h5, h6, h7, h8] at hjson
    simp only [List.append_assoc] at hjson
    iterate 15 replace hjson := app_cancel_left hjson
    exact encOpt_inj (app_cancel_right hjson)
  · intro r1 r2 hw1 hw2 h1 h2 h3 h4 h5 h6 h7 h8 hne hjson
    apply hne
    unfold canonicalJson at hjson
    rw [h1, h2, h3, h4, h5, h6, h7, h8] at hjson
    simp only [List.append_assoc] at hjson
    iterate 17 replace hjson := app_cancel_left hjson
    exact isoformat_inj _ _ hw1 hw2 (encStr_inj (app_cancel_right hjson))
  · intro db r
    rfl

/-- Claim C8, witness: the description-sensitivity conjunct applied to two
concrete records differing only in description, whose canonical JSON
strings indeed differ. -/
theorem C8_witness :
    canonicalJson rAudit ≠
      canonicalJson { rAudit with description := "other".toList } :=
  C8_checksum_scheme.2.2.2.1 rAudit { rAudit with description := "other".toList }
    rfl rfl rfl rfl rfl rfl rfl rfl (by decide)

end Menshun
